import Mathlib

/-!
Shallow embedding of `tensorflow_recommenders/models/base.py`.

The source defines a single base class `Model` with four methods:

  - `train_loss(inputs, training=True)`: abstract, raises
    `NotImplementedError` in the base class;
  - `test_loss(inputs)`: defaults to `self.train_loss(inputs)` (so the
    `training` flag keeps its default value `True`);
  - `train_step(inputs)`: unwraps a length-1 tuple, computes the training
    loss under a gradient tape, computes gradients, applies the optimizer,
    collects a metrics dictionary, and overwrites its `"loss"` entry with
    the loss;
  - `test_step(inputs)`: unwraps a length-1 tuple, computes the test loss,
    collects the metrics dictionary and overwrites `"loss"`, without
    touching parameters.

Side effects of the Python code are made explicit: trainable variables are
a `List Int` threaded through the step functions, metric-accumulator state
is a value of an abstract type `ms` updated by the loss computations, and
Python exceptions become the `Except PyErr` monad.  The external
collaborators (the differentiation engine `tf.GradientTape.gradient` and
the optimizer `apply_gradients`) are an `Env` of functions; per TensorFlow
semantics, `apply_gradients` skips pairs whose gradient is `None`.
-/

namespace TFRS

/-- A Python value arriving as a step input: either the raw structure of
tensors used by the model, a tuple of values, or a (non-tuple) list of
values.  The distinction matters because `train_step`/`test_step` test
`isinstance(inputs, tuple) and len(inputs) == 1`. -/
inductive PyVal (σ : Type) where
  | struct : σ → PyVal σ
  | tuple : List (PyVal σ) → PyVal σ
  | list : List (PyVal σ) → PyVal σ

/-- Python exceptions observable at this layer: the `NotImplementedError`
raised by the abstract `train_loss`, and any computation error raised
inside loss or gradient computation. -/
inductive PyErr where
  | notImplementedError : String → PyErr
  | computationError : String → PyErr
  deriving DecidableEq, Repr

/-- A metric accumulator as seen by the steps: it has a `name` and a
`result()` read from the current variable values and metric state. -/
structure Metric (ms : Type) where
  name : String
  result : List Int → ms → Int

/-- The subclass-facing surface of `tfrs.models.Model`:
`trainLossImpl`/`testLossImpl` are the optional subclass overrides of
`train_loss`/`test_loss` (`none` = not overridden, the base-class body
runs), and `metrics` is the Keras metric list.  A loss computation reads
the trainable variables, may update metric state, and returns the scalar
loss or raises. -/
structure Model (σ ms : Type) where
  trainLossImpl : Option (PyVal σ → Bool → List Int → ms → Except PyErr (Int × ms))
  testLossImpl : Option (PyVal σ → List Int → ms → Except PyErr (Int × ms))
  metrics : List (Metric ms)

/-- The external collaborators of a training step: `gradientOf` models
`tape.gradient(loss, trainable_variables)` (one `Option Int` per
trainable variable, `none` for a variable not involved in the loss, and
it may raise), and `applyUpdate` is the optimizer's per-variable update
rule. -/
structure Env (σ : Type) where
  gradientOf : Int → PyVal σ → List Int → Except PyErr (List (Option Int))
  applyUpdate : Int → Int → Int

variable {σ ms : Type}

/-- Python dictionary assignment `d[k] = v` on a dictionary represented as
an insertion-ordered association list: replace the value at an existing
key, otherwise append. -/
def insertEntry : List (String × Int) → String → Int → List (String × Int)
  | [], k, v => [(k, v)]
  | (k₀, v₀) :: rest, k, v =>
      if k₀ = k then (k, v) :: rest else (k₀, v₀) :: insertEntry rest k v

/-- Python dictionary read `d[k]`: the value stored at key `k`. -/
def lookupEntry : List (String × Int) → String → Option Int
  | [], _ => none
  | (k₀, v₀) :: rest, k => if k₀ = k then some v₀ else lookupEntry rest k

/-- `{metric.name: metric.result() for metric in self.metrics}`: build the
metrics dictionary by successive assignment. -/
def snapshotMetrics (metrics : List (Metric ms)) (params : List Int) (st : ms) :
    List (String × Int) :=
  metrics.foldl (fun d m => insertEntry d m.name (m.result params st)) []

/-- The input normalization shared by `train_step` and `test_step`:
`if isinstance(inputs, tuple) and len(inputs) == 1: inputs = inputs[0]`.
Exactly a tuple of length one is unwrapped; everything else is returned
unchanged. -/
def normalizeInputs : PyVal σ → PyVal σ
  | .tuple [x] => x
  | other => other

/-- `Model.train_loss`: the base-class body raises `NotImplementedError`;
a subclass override is called with the batch, the `training` flag, the
variables and the metric state. -/
def Model.train_loss (m : Model σ ms) (inputs : PyVal σ) (training : Bool)
    (params : List Int) (st : ms) : Except PyErr (Int × ms) :=
  match m.trainLossImpl with
  | none => .error (.notImplementedError
      "Implementers must implement the `train_loss` method.")
  | some f => f inputs training params st

/-- `Model.test_loss`: the base-class body is `return self.train_loss(inputs)`,
which leaves `training` at its default value `true`; a subclass override
replaces it. -/
def Model.test_loss (m : Model σ ms) (inputs : PyVal σ) (params : List Int)
    (st : ms) : Except PyErr (Int × ms) :=
  match m.testLossImpl with
  | none => m.train_loss inputs true params st
  | some f => f inputs params st

/-- `optimizer.apply_gradients(zip(gradients, trainable_variables))`: each
variable paired with a present gradient is updated by the optimizer's
rule; a variable paired with an absent (`None`) gradient is left
unchanged.  `zip` truncates at the shorter list, leaving any unpaired
variables untouched. -/
def applyGradients (upd : Int → Int → Int) : List (Option Int) → List Int → List Int
  | _, [] => []
  | [], p :: ps => p :: ps
  | none :: gs, p :: ps => p :: applyGradients upd gs ps
  | some g :: gs, p :: ps => upd p g :: applyGradients upd gs ps

/-- The observable outcome of one successful step: the trainable-variable
values after the step, the metric state after the step, and the returned
metrics dictionary. -/
structure StepResult (ms : Type) where
  params : List Int
  metricState : ms
  output : List (String × Int)
  deriving Repr

/-- `Model.train_step`: normalize the input, compute the training loss
under the tape, compute gradients, apply the optimizer, collect the
metrics dictionary from the updated state, and overwrite its `"loss"`
entry with the loss of this call. -/
def Model.train_step (m : Model σ ms) (env : Env σ) (inputs : PyVal σ)
    (params : List Int) (st : ms) : Except PyErr (StepResult ms) :=
  match m.train_loss (normalizeInputs inputs) true params st with
  | .error e => .error e
  | .ok (loss, st₁) =>
      match env.gradientOf loss (normalizeInputs inputs) params with
      | .error e => .error e
      | .ok gradients =>
          let params₁ := applyGradients env.applyUpdate gradients params
          .ok ⟨params₁, st₁,
            insertEntry (snapshotMetrics m.metrics params₁ st₁) "loss" loss⟩

/-- `Model.test_step`: normalize the input, compute the test loss, collect
the metrics dictionary and overwrite its `"loss"` entry.  No gradient is
recorded and the trainable variables are returned untouched. -/
def Model.test_step (m : Model σ ms) (inputs : PyVal σ) (params : List Int)
    (st : ms) : Except PyErr (StepResult ms) :=
  match m.test_loss (normalizeInputs inputs) params st with
  | .error e => .error e
  | .ok (loss, st₁) =>
      .ok ⟨params, st₁,
        insertEntry (snapshotMetrics m.metrics params st₁) "loss" loss⟩

/-- Reading a key just assigned to a dictionary yields the assigned value,
whether or not the key was already present. -/
theorem lookupEntry_insertEntry (d : List (String × Int)) (k : String) (v : Int) :
    lookupEntry (insertEntry d k v) k = some v := by
  induction d with
  | nil => simp [insertEntry, lookupEntry]
  | cons hd tl ih =>
      obtain ⟨k₀, v₀⟩ := hd
      by_cases h : k₀ = k
      · simp [insertEntry, lookupEntry, h]
      · simp [insertEntry, lookupEntry, h, ih]

/-! ### Concrete fixtures used by the witnesses -/

/-- A direct instantiation of the base class: no `train_loss` override, no
`test_loss` override, no metrics. -/
def baseModel : Model Nat Int := ⟨none, none, []⟩

/-- A subclass overriding only `train_loss`.  On a feature structure `n`
the loss is `w * n + training`, where `w` is the first trainable variable,
and the metric state (a step counter) is incremented; any other input
shape raises.  Its metric list contains a running metric `"count"` and a
metric literally named `"loss"` whose own result is `999`, to exercise the
dictionary overwrite. -/
def exModel : Model Nat Int :=
  ⟨some (fun inputs training params st =>
      match inputs with
      | .struct n => .ok (params.headD 0 * (n : Int) + (if training then 1 else 0), st + 1)
      | _ => .error (.computationError "expected a feature structure")),
   none,
   [⟨"count", fun _ st => st⟩, ⟨"loss", fun _ _ => 999⟩]⟩

/-- An environment whose differentiation engine reports the loss itself as
the gradient of every variable and whose optimizer subtracts the
gradient. -/
def exEnv : Env Nat :=
  ⟨fun loss _ params => .ok (params.map fun _ => some loss), fun p g => p - g⟩

/-- An environment whose differentiation engine reports no gradient
(`None`) for the first variable and the loss for the second one. -/
def nullGradEnv : Env Nat :=
  ⟨fun loss _ _ => .ok [none, some loss], fun p g => p - g⟩

/-- An environment whose differentiation engine raises. -/
def failGradEnv : Env Nat :=
  ⟨fun _ _ _ => .error (.computationError "gradient computation failed"), fun p g => p - g⟩

/-- A subclass whose `train_loss` raises a computation error. -/
def failModel : Model Nat Int :=
  ⟨some (fun _ _ _ _ => .error (.computationError "loss blew up")), none, []⟩

/-- A subclass whose `train_loss` returns the `training` flag (1 when
true, 0 when false) as the loss, to observe which flag the default
`test_loss` passes. -/
def flagModel : Model Nat Int :=
  ⟨some (fun _ training _ st => .ok (if training then 1 else 0, st)), none, []⟩

/-! ### Claims -/

/-- Claim C1: if the training-loss computation is not overridden by a
subclass, invoking `train_step` raises `NotImplementedError` immediately
and unconditionally — the result is the error, for every environment, so
no gradient computation and no optimizer application can have taken
place. -/
theorem C1_train_step_not_implemented (m : Model σ ms) (env : Env σ)
    (inputs : PyVal σ) (params : List Int) (st : ms)
    (h : m.trainLossImpl = none) :
    m.train_step env inputs params st =
      .error (.notImplementedError
        "Implementers must implement the `train_loss` method.") := by
  simp [Model.train_step, Model.train_loss, h]

/-- Witness for C1: the base class itself fails with `NotImplementedError`
on a concrete batch. -/
theorem C1_witness :
    baseModel.train_step exEnv (.struct 5) [3] 0 =
      .error (.notImplementedError
        "Implementers must implement the `train_loss` method.") :=
  C1_train_step_not_implemented baseModel exEnv (.struct 5) [3] 0 rfl

/-- Claim C3: wrapping a batch structure `S` as a one-element tuple
changes nothing: `train_step` on `(S,)` returns exactly the same outcome
(variables, metric state, metrics dictionary, or error) as on `S`, and
likewise `test_step`. -/
theorem C3_singleton_tuple_unwrap (m : Model σ ms) (env : Env σ) (s : σ)
    (params : List Int) (st : ms) :
    m.train_step env (.tuple [.struct s]) params st =
        m.train_step env (.struct s) params st ∧
      m.test_step (.tuple [.struct s]) params st =
        m.test_step (.struct s) params st :=
  ⟨rfl, rfl⟩

/-- Claim C9: the default `test_loss` forwards the batch to `train_loss`
with the `training` flag left at its default value `true`. -/
theorem C9_default_test_loss_training_true (m : Model σ ms) (inputs : PyVal σ)
    (params : List Int) (st : ms) (h : m.testLossImpl = none) :
    m.test_loss inputs params st = m.train_loss inputs true params st := by
  simp [Model.test_loss, h]

/-- Witness for C9: a model whose training loss returns the `training`
flag observes `1` (that is, `training = true`) under the default
`test_loss`. -/
theorem C9_witness :
    flagModel.test_loss (.struct 0) [] 0 = .ok (1, 0) :=
  C9_default_test_loss_training_true flagModel (.struct 0) [] 0 rfl

/-- Claim C10: the unwrapping applied by both step operations fires
exactly on a tuple of length one; a tuple of any other length, any list
(even a one-element list) and any bare structure pass through
unchanged. -/
theorem C10_unwrap_exactly_singleton_tuple (σ : Type) :
    (∀ (x : PyVal σ), normalizeInputs (.tuple [x]) = x) ∧
    (∀ (l : List (PyVal σ)), l.length ≠ 1 → normalizeInputs (.tuple l) = .tuple l) ∧
    (∀ (l : List (PyVal σ)), normalizeInputs (.list l) = .list l) ∧
    (∀ (s : σ), normalizeInputs (.struct s) = .struct s) := by
  refine ⟨fun x => rfl, fun l hl => ?_, fun l => rfl, fun s => rfl⟩
  match l with
  | [] => rfl
  | [x] => exact absurd rfl hl
  | x :: y :: rest => rfl

/-- Witness for C10: a two-element tuple — the `(features, labels)` shape —
is not unwrapped. -/
theorem C10_witness :
    normalizeInputs (PyVal.tuple [PyVal.struct (0 : Nat), PyVal.struct 1]) =
      PyVal.tuple [PyVal.struct 0, PyVal.struct 1] :=
  (C10_unwrap_exactly_singleton_tuple Nat).2.1 _ (by decide)

/-- Claim C2: for a subclass that overrides only `train_loss`, the
`"loss"` entry returned by `test_step` on batch `B` equals the loss that
`train_loss` computes on `B` at the current parameters — the very value
any successful `train_step` on the same `B` from the same state also
reports (parameters held fixed during the loss computation, the optimizer
only acting afterwards). -/
theorem C2_default_eval_loss_matches_train_loss (m : Model σ ms) (env : Env σ)
    (B : PyVal σ) (params : List Int) (st : ms) (l : Int) (st₁ : ms)
    (hTest : m.testLossImpl = none)
    (hLoss : m.train_loss (normalizeInputs B) true params st = .ok (l, st₁)) :
    (m.test_step B params st =
      .ok ⟨params, st₁, insertEntry (snapshotMetrics m.metrics params st₁) "loss" l⟩ ∧
      lookupEntry (insertEntry (snapshotMetrics m.metrics params st₁) "loss" l) "loss" =
        some l) ∧
    (∀ r, m.train_step env B params st = .ok r →
      lookupEntry r.output "loss" = some l) := by
  have hTL : m.test_loss (normalizeInputs B) params st = .ok (l, st₁) := by
    simp only [Model.test_loss, hTest]
    exact hLoss
  refine ⟨⟨?_, lookupEntry_insertEntry _ _ _⟩, ?_⟩
  · simp only [Model.test_step, hTL]
  · intro r hr
    simp only [Model.train_step, hLoss] at hr
    split at hr
    · exact absurd hr (by simp)
    · injection hr with h
      subst h
      exact lookupEntry_insertEntry _ _ _

/-- Witness for C2: the concrete model's `test_step` and `train_step` on
the same batch both report loss `7`. -/
theorem C2_witness :
    lookupEntry [("count", 1), ("loss", 7)] "loss" = some 7 :=
  (C2_default_eval_loss_matches_train_loss exModel exEnv (.struct 2) [3] 0 7 1
    rfl rfl).2 ⟨[-4], 1, [("count", 1), ("loss", 7)]⟩ (by rfl)

/-- Claim C4: `test_step` never mutates any trainable parameter — the
parameter values in any successful outcome equal the values before the
call. -/
theorem C4_test_step_params_unchanged (m : Model σ ms) (inputs : PyVal σ)
    (params : List Int) (st : ms) (r : StepResult ms)
    (h : m.test_step inputs params st = .ok r) :
    r.params = params := by
  simp only [Model.test_step] at h
  split at h
  · exact absurd h (by simp)
  · injection h with h₁
    subst h₁
    rfl

/-- Witness for C4: an evaluation step of the concrete model leaves its
parameter `[3]` untouched. -/
theorem C4_witness :
    (⟨[3], 1, [("count", 1), ("loss", 7)]⟩ : StepResult Int).params = [3] :=
  C4_test_step_params_unchanged exModel (.struct 2) [3] 0
    ⟨[3], 1, [("count", 1), ("loss", 7)]⟩ rfl

/-- Claim C5: phase order of `train_step` — the loss is computed first
(yielding the post-loss metric state `st₁`), the gradients next, then the
optimizer update produces the new parameters, and only then is the metrics
snapshot collected: the returned snapshot is read at the post-loss metric
state and the post-update parameters, with the `"loss"` entry written
last. -/
theorem C5_train_step_phase_order (m : Model σ ms) (env : Env σ)
    (inputs : PyVal σ) (params : List Int) (st : ms) (l : Int) (st₁ : ms)
    (grads : List (Option Int))
    (hLoss : m.train_loss (normalizeInputs inputs) true params st = .ok (l, st₁))
    (hGrad : env.gradientOf l (normalizeInputs inputs) params = .ok grads) :
    m.train_step env inputs params st =
      .ok ⟨applyGradients env.applyUpdate grads params, st₁,
        insertEntry
          (snapshotMetrics m.metrics (applyGradients env.applyUpdate grads params) st₁)
          "loss" l⟩ := by
  simp only [Model.train_step, hLoss, hGrad]

/-- Witness for C5: a concrete training step — loss `7`, gradient `7`,
parameter `3` updated to `-4`, and the snapshot (including the metric
literally named `"loss"`) read after the update. -/
theorem C5_witness :
    exModel.train_step exEnv (.struct 2) [3] 0 =
      .ok ⟨[-4], 1, [("count", 1), ("loss", 7)]⟩ :=
  C5_train_step_phase_order exModel exEnv (.struct 2) [3] 0 7 1 [some 7] rfl rfl

/-- Claim C6: every successful step call returns a dictionary whose
`"loss"` entry is exactly the scalar loss computed inside that call —
even when a metric accumulator is itself named `"loss"`, its snapshot
entry is overwritten by this value. -/
theorem C6_loss_key_always_present (m : Model σ ms) (env : Env σ)
    (inputs : PyVal σ) (params : List Int) (st : ms) :
    (∀ l st₁ r, m.train_loss (normalizeInputs inputs) true params st = .ok (l, st₁) →
      m.train_step env inputs params st = .ok r →
      lookupEntry r.output "loss" = some l) ∧
    (∀ l st₁ r, m.test_loss (normalizeInputs inputs) params st = .ok (l, st₁) →
      m.test_step inputs params st = .ok r →
      lookupEntry r.output "loss" = some l) := by
  constructor
  · intro l st₁ r hLoss hr
    simp only [Model.train_step, hLoss] at hr
    split at hr
    · exact absurd hr (by simp)
    · injection hr with h
      subst h
      exact lookupEntry_insertEntry _ _ _
  · intro l st₁ r hLoss hr
    simp only [Model.test_step, hLoss] at hr
    injection hr with h
    subst h
    exact lookupEntry_insertEntry _ _ _

/-- Witness for C6: the concrete model owns a metric named `"loss"` whose
own result is `999`, yet the returned entry is the computed loss `7`. -/
theorem C6_witness :
    lookupEntry (insertEntry (snapshotMetrics exModel.metrics [-4] 1) "loss" 7)
      "loss" = some 7 :=
  (C6_loss_key_always_present exModel exEnv (.struct 2) [3] 0).1 7 1
    ⟨[-4], 1, [("count", 1), ("loss", 7)]⟩ rfl (by rfl)

/-- Claim C7: failures propagate unmodified and fail-fast.  If the loss
computation raises, the step returns exactly that error; if the loss
succeeds but the gradient computation raises, `train_step` returns exactly
that error.  An erroring step returns no metrics dictionary at all — its
outcome carries no `StepResult`. -/
theorem C7_error_propagation (m : Model σ ms) (env : Env σ)
    (inputs : PyVal σ) (params : List Int) (st : ms) (e : PyErr) :
    (m.train_loss (normalizeInputs inputs) true params st = .error e →
      m.train_step env inputs params st = .error e) ∧
    (∀ l st₁, m.train_loss (normalizeInputs inputs) true params st = .ok (l, st₁) →
      env.gradientOf l (normalizeInputs inputs) params = .error e →
      m.train_step env inputs params st = .error e) ∧
    (m.test_loss (normalizeInputs inputs) params st = .error e →
      m.test_step inputs params st = .error e) := by
  refine ⟨fun h => ?_, fun l st₁ h hg => ?_, fun h => ?_⟩
  · simp only [Model.train_step, h]
  · simp only [Model.train_step, h, hg]
  · simp only [Model.test_step, h]

/-- Witness for C7: a model whose loss raises makes `train_step` surface
the very same error. -/
theorem C7_witness :
    failModel.train_step exEnv (.struct 0) [] 0 =
      .error (.computationError "loss blew up") :=
  (C7_error_propagation failModel exEnv (.struct 0) [] 0
    (.computationError "loss blew up")).1 rfl

/-- Index-wise description of `apply_gradients`: position `i` of the
updated parameter list holds the old parameter when its gradient is
absent, and the optimizer-updated value when its gradient is present. -/
theorem applyGradients_get (upd : Int → Int → Int) (grads : List (Option Int))
    (params : List Int) (i : Nat) :
    (applyGradients upd grads params).get? i =
      (params.get? i).map fun p =>
        match grads.get? i with
        | some (some g) => upd p g
        | _ => p := by
  induction params generalizing grads i with
  | nil => cases grads <;> simp [applyGradients]
  | cons p ps ih =>
      cases grads with
      | nil =>
          cases i with
          | zero => simp [applyGradients]
          | succ j =>
              simp only [applyGradients, List.get?_cons_succ, List.get?_nil]
              cases ps.get? j <;> rfl
      | cons g gs =>
          cases g with
          | none =>
              cases i with
              | zero => simp [applyGradients]
              | succ j => simpa [applyGradients] using ih gs j
          | some gv =>
              cases i with
              | zero => simp [applyGradients]
              | succ j => simpa [applyGradients] using ih gs j

/-- Claim C8: an absent (`None`) gradient raises no error — the training
step still completes, the parameter whose gradient is absent keeps its old
value, and every parameter with a present gradient is updated by the
optimizer's rule. -/
theorem C8_null_gradient_tolerated (m : Model σ ms) (env : Env σ)
    (inputs : PyVal σ) (params : List Int) (st : ms) (l : Int) (st₁ : ms)
    (grads : List (Option Int))
    (hLoss : m.train_loss (normalizeInputs inputs) true params st = .ok (l, st₁))
    (hGrad : env.gradientOf l (normalizeInputs inputs) params = .ok grads) :
    (m.train_step env inputs params st =
      .ok ⟨applyGradients env.applyUpdate grads params, st₁,
        insertEntry
          (snapshotMetrics m.metrics (applyGradients env.applyUpdate grads params) st₁)
          "loss" l⟩) ∧
    (∀ i p, grads.get? i = some none → params.get? i = some p →
      (applyGradients env.applyUpdate grads params).get? i = some p) ∧
    (∀ i g p, grads.get? i = some (some g) → params.get? i = some p →
      (applyGradients env.applyUpdate grads params).get? i =
        some (env.applyUpdate p g)) := by
  refine ⟨?_, fun i p hg hp => ?_, fun i g p hg hp => ?_⟩
  · simp only [Model.train_step, hLoss, hGrad]
  · rw [applyGradients_get, hp, hg]
    rfl
  · rw [applyGradients_get, hp, hg]
    rfl

/-- Witness for C8: with gradients `[None, 31]` over parameters
`[10, 20]`, the step completes, parameter `10` is untouched and parameter
`20` becomes `20 - 31 = -11`. -/
theorem C8_witness :
    exModel.train_step nullGradEnv (.struct 3) [10, 20] 0 =
      .ok ⟨[10, -11], 1, [("count", 1), ("loss", 31)]⟩ ∧
    (applyGradients nullGradEnv.applyUpdate [none, some 31] [10, 20]).get? 0 =
      some 10 ∧
    (applyGradients nullGradEnv.applyUpdate [none, some 31] [10, 20]).get? 1 =
      some (-11) :=
  ⟨(C8_null_gradient_tolerated exModel nullGradEnv (.struct 3) [10, 20] 0 31 1
      [none, some 31] rfl rfl).1,
   (C8_null_gradient_tolerated exModel nullGradEnv (.struct 3) [10, 20] 0 31 1
      [none, some 31] rfl rfl).2.1 0 10 rfl rfl,
   (C8_null_gradient_tolerated exModel nullGradEnv (.struct 3) [10, 20] 0 31 1
      [none, some 31] rfl rfl).2.2 1 31 20 rfl rfl⟩

end TFRS
